import Mathlib

/-!
Verification of the audx-realtime denoiser core (`src/src/audx/denoiser.c`)
against its natural-language specification.

Modelling conventions:
* IEEE-754 `float` values are embedded as rationals (`ℚ`).  Every concrete
  operation the verified code performs on floats (comparison, clamping,
  negation, addition of two scores, halving) is exact on the values involved,
  so the rational embedding is faithful for the stated properties.
* C pointers that may be `NULL` are embedded as `Option`; dereferencing a
  `none` models a crash.
* `int16_t` sample values are embedded as `ℤ`; the verified conversions
  clamp into `[-32768, 32767]` before narrowing, so no wraparound arises.
* The `uint64_t` statistics counters are embedded as `ℕ`; wraparound at
  2^64 frames (several billion years of audio) is disregarded.
* The RNNoise inference engine is external (a black box per the spec); it is
  embedded as an oracle parameter `rnn : RnnOracle` giving, per channel, the
  denoised frame and the VAD score.
-/

namespace Audx

/-- Constant `AUDX_FRAME_SIZE` / `FRAME_SIZE` (480): samples per 10 ms at 48 kHz. -/
def FRAME_SIZE : Nat := 480

/-- Success return code (0, as asserted by the unit tests). -/
def REALTIME_DENOISER_SUCCESS : Int := 0

/-- The `InvalidArgument` error code (-1, mirroring `AUDX_ERROR_INVALID`). -/
def REALTIME_DENOISER_ERROR_INVALID : Int := -1

/-- The `OutOfMemory` error code (-2, mirroring `AUDX_ERROR_MEMORY`). -/
def REALTIME_DENOISER_ERROR_MEMORY : Int := -2

/-- The `ModelError` error code (-3, mirroring `AUDX_ERROR_MODEL`). -/
def REALTIME_DENOISER_ERROR_MODEL : Int := -3

/-! ## Sample converter (`denoiser.c` lines 52–189)

The x86 build compiles the SSE bodies (lines 53–109); every build shares the
same scalar tail / scalar fallback (lines 72–74, 100–108, 170–188). -/

/-- The two sequential clamp tests of the scalar path (lines 102–106):
`if (val > 32767.0f) val = 32767.0f; if (val < -32768.0f) val = -32768.0f;`.
The SSE body's `_mm_min_ps(_mm_max_ps(v, min), max)` computes the same value
for every non-NaN input. -/
def clampPCM (v : ℚ) : ℚ :=
  let v1 := if v > 32767 then (32767 : ℚ) else v
  if v1 < -32768 then (-32768 : ℚ) else v1

/-- The C cast `(int16_t)val` on an in-range float: truncation toward zero. -/
def truncToInt (v : ℚ) : ℤ :=
  if 0 ≤ v then ⌊v⌋ else ⌈v⌉

/-- One sample of the scalar `pcm_float_to_int16` path (lines 101–107). -/
def float_to_int16_one (v : ℚ) : ℤ :=
  truncToInt (clampPCM v)

/-- Intrinsic `_mm_cvtps_epi32`: float→int32 conversion in the default MXCSR rounding
mode, round to nearest with ties to even. -/
def rne (q : ℚ) : ℤ :=
  if q - ⌊q⌋ < 1/2 then ⌊q⌋
  else if 1/2 < q - ⌊q⌋ then ⌊q⌋ + 1
  else if ⌊q⌋ % 2 = 0 then ⌊q⌋ else ⌊q⌋ + 1

/-- Intrinsic `_mm_packs_epi32`: int32→int16 narrowing with signed saturation. -/
def packs16 (n : ℤ) : ℤ :=
  max (-32768) (min 32767 n)

/-- One sample of the SSE `pcm_float_to_int16` body (lines 85–99):
clamp, convert to int32 by round-to-nearest-even, pack with saturation. -/
def simd_float_to_int16_one (v : ℚ) : ℤ :=
  packs16 (rne (clampPCM v))

/-- Scalar `pcm_int16_to_float` (lines 172–176): each int16 sample is cast to
float.  Every value in `[-32768, 32767]` is exactly representable, so the cast
is the exact injection `ℤ → ℚ`. -/
def pcm_int16_to_float_scalar (input : List ℤ) : List ℚ :=
  input.map (fun x : ℤ => (x : ℚ))

/-- Scalar `pcm_float_to_int16` (lines 178–188): clamp then truncating cast. -/
def pcm_float_to_int16_scalar (input : List ℚ) : List ℤ :=
  input.map float_to_int16_one

/-- SSE `pcm_int16_to_float` (lines 55–75): the vector loop
`for (; i <= count - 8; i += 8)` handles the first `8 * (count / 8)` samples
(sign-extend to int32 with `_mm_cvtepi16_epi32`, then `_mm_cvtepi32_ps`, both
exact on int16 values), the scalar tail (lines 73–74) handles the rest. -/
def pcm_int16_to_float_simd (input : List ℤ) : List ℚ :=
  ((input.take (8 * (input.length / 8))).map (fun x : ℤ => (x : ℚ))) ++
    ((input.drop (8 * (input.length / 8))).map (fun x : ℤ => (x : ℚ)))

/-- SSE `pcm_float_to_int16` (lines 78–109): the vector loop handles the first
`8 * (count / 8)` samples, the scalar tail (lines 101–107) the rest. -/
def pcm_float_to_int16_simd (input : List ℚ) : List ℤ :=
  ((input.take (8 * (input.length / 8))).map simd_float_to_int16_one) ++
    ((input.drop (8 * (input.length / 8))).map float_to_int16_one)

/-! ### Pointwise facts about the converters -/

theorem clampPCM_of_mem (v : ℚ) (h1 : -32768 ≤ v) (h2 : v ≤ 32767) :
    clampPCM v = v := by
  have hv : ¬ v > 32767 := not_lt.mpr h2
  have hv' : ¬ v < -32768 := not_lt.mpr h1
  simp [clampPCM, hv, hv']

theorem clampPCM_high (v : ℚ) (h : 32767 < v) : clampPCM v = 32767 := by
  have hv : ¬ (32767 : ℚ) < -32768 := by norm_num
  simp [clampPCM, h, hv]

theorem clampPCM_low (v : ℚ) (h : v < -32768) : clampPCM v = -32768 := by
  have hv : ¬ v > 32767 := by linarith
  simp [clampPCM, hv, h]

theorem truncToInt_intCast (x : ℤ) : truncToInt (x : ℚ) = x := by
  unfold truncToInt
  by_cases h : (0 : ℚ) ≤ (x : ℚ) <;> simp [h]

theorem rne_intCast (x : ℤ) : rne (x : ℚ) = x := by
  unfold rne
  norm_num [Int.floor_intCast]

theorem packs16_of_mem (n : ℤ) (h1 : -32768 ≤ n) (h2 : n ≤ 32767) :
    packs16 n = n := by
  unfold packs16
  omega

theorem float_to_int16_one_intCast (x : ℤ) (h1 : -32768 ≤ x) (h2 : x ≤ 32767) :
    float_to_int16_one (x : ℚ) = x := by
  unfold float_to_int16_one
  rw [clampPCM_of_mem _ (by exact_mod_cast h1) (by exact_mod_cast h2)]
  exact truncToInt_intCast x

theorem simd_float_to_int16_one_intCast (x : ℤ)
    (h1 : -32768 ≤ x) (h2 : x ≤ 32767) :
    simd_float_to_int16_one (x : ℚ) = x := by
  unfold simd_float_to_int16_one
  rw [clampPCM_of_mem _ (by exact_mod_cast h1) (by exact_mod_cast h2),
    rne_intCast]
  exact packs16_of_mem x h1 h2

theorem clampPCM_bounds (v : ℚ) :
    -32768 ≤ clampPCM v ∧ clampPCM v ≤ 32767 := by
  unfold clampPCM
  by_cases h1 : v > 32767
  · norm_num [h1]
  · simp only [h1, if_false]
    by_cases h2 : v < -32768
    · norm_num [h2]
    · simp only [h2, if_false]
      constructor <;> [linarith [not_lt.mp h2]; linarith [not_lt.mp h1]]

theorem simd_float_to_int16_one_high (v : ℚ) (h : 32767 < v) :
    simd_float_to_int16_one v = 32767 := by
  unfold simd_float_to_int16_one
  rw [clampPCM_high v h]
  have hr : rne ((32767 : ℤ) : ℚ) = 32767 := rne_intCast 32767
  norm_num at hr
  rw [hr]
  unfold packs16
  omega

theorem simd_float_to_int16_one_low (v : ℚ) (h : v < -32768) :
    simd_float_to_int16_one v = -32768 := by
  unfold simd_float_to_int16_one
  rw [clampPCM_low v h]
  have hr : rne ((-32768 : ℤ) : ℚ) = -32768 := rne_intCast (-32768)
  norm_num at hr
  rw [hr]
  unfold packs16
  omega

theorem float_to_int16_one_high (v : ℚ) (h : 32767 < v) :
    float_to_int16_one v = 32767 := by
  unfold float_to_int16_one
  rw [clampPCM_high v h]
  have ht : truncToInt ((32767 : ℤ) : ℚ) = 32767 := truncToInt_intCast 32767
  norm_num at ht
  exact ht

theorem float_to_int16_one_low (v : ℚ) (h : v < -32768) :
    float_to_int16_one v = -32768 := by
  unfold float_to_int16_one
  rw [clampPCM_low v h]
  have ht : truncToInt ((-32768 : ℤ) : ℚ) = -32768 := truncToInt_intCast (-32768)
  norm_num at ht
  exact ht

/-! ### List-level facts about the converters -/

theorem list_map_id_of_mem {α : Type} (l : List α) (f : α → α)
    (h : ∀ x ∈ l, f x = x) : l.map f = l := by
  induction l with
  | nil => rfl
  | cons a t ih => simp_all

/-- The vector and scalar int16→float conversions agree everywhere: both are
the exact injection of the int16 value into float. -/
theorem pcm_int16_to_float_simd_eq_scalar (input : List ℤ) :
    pcm_int16_to_float_simd input = pcm_int16_to_float_scalar input := by
  unfold pcm_int16_to_float_simd pcm_int16_to_float_scalar
  rw [← List.map_append, List.take_append_drop]

/-- Element `i` of the SSE float→int16 output: the vector body handles the
first `8 * (count / 8)` positions, the scalar tail the rest. -/
theorem pcm_float_to_int16_simd_getD (input : List ℚ) (i : Nat)
    (hi : i < input.length) :
    (pcm_float_to_int16_simd input).getD i 0 =
      if i < 8 * (input.length / 8) then
        simd_float_to_int16_one (input.getD i 0)
      else float_to_int16_one (input.getD i 0) := by
  have hk : 8 * (input.length / 8) ≤ input.length := by omega
  have hlen1 : ((input.take (8 * (input.length / 8))).map
      simd_float_to_int16_one).length = 8 * (input.length / 8) := by
    simp only [List.length_map, List.length_take]
    omega
  unfold pcm_float_to_int16_simd
  by_cases hcase : i < 8 * (input.length / 8)
  · rw [if_pos hcase,
      List.getD_append _ _ _ _ (by rw [hlen1]; exact hcase),
      List.getD_eq_getElem _ _ (by rw [hlen1]; exact hcase),
      List.getD_eq_getElem _ _ hi]
    simp
  · rw [if_neg hcase,
      List.getD_append_right _ _ _ _ (by rw [hlen1]; omega), hlen1]
    have hlt : i - 8 * (input.length / 8) <
        ((input.drop (8 * (input.length / 8))).map float_to_int16_one).length := by
      simp only [List.length_map, List.length_drop]
      omega
    rw [List.getD_eq_getElem _ _ hlt, List.getD_eq_getElem _ _ hi]
    simp only [List.getElem_map, List.getElem_drop]
    congr 1
    exact getElem_congr (by omega)

/-- Claim C1: Converting any buffer of in-range int16 samples to float with
`pcm_int16_to_float` and back with `pcm_float_to_int16` (both as compiled,
vector body plus scalar tail) returns the original buffer: every int16 value
is exactly representable in float, the clamp leaves it unchanged, and both
the truncating scalar cast and the rounding vector conversion are exact on
integers. -/
theorem pcm_int16_roundtrip (input : List ℤ)
    (hrange : ∀ x ∈ input, -32768 ≤ x ∧ x ≤ 32767) :
    pcm_float_to_int16_simd (pcm_int16_to_float_simd input) = input := by
  rw [pcm_int16_to_float_simd_eq_scalar]
  unfold pcm_float_to_int16_simd pcm_int16_to_float_scalar
  simp only [List.length_map, ← List.map_take, ← List.map_drop, List.map_map]
  rw [list_map_id_of_mem _ _ (fun x hx => ?_), list_map_id_of_mem _ _
    (fun x hx => ?_), List.take_append_drop]
  · obtain ⟨h1, h2⟩ := hrange x (List.drop_subset _ _ hx)
    exact float_to_int16_one_intCast x h1 h2
  · obtain ⟨h1, h2⟩ := hrange x (List.take_subset _ _ hx)
    exact simd_float_to_int16_one_intCast x h1 h2

theorem pcm_int16_roundtrip_witness :
    (∀ x ∈ ([-32768, -1, 0, 1, 32767, 100, -100, 7, 42] : List ℤ),
      -32768 ≤ x ∧ x ≤ 32767) ∧
    pcm_float_to_int16_simd (pcm_int16_to_float_simd
        ([-32768, -1, 0, 1, 32767, 100, -100, 7, 42] : List ℤ)) =
      [-32768, -1, 0, 1, 32767, 100, -100, 7, 42] :=
  ⟨by decide, pcm_int16_roundtrip _ (by decide)⟩

/-- Claim C2: `pcm_float_to_int16` (as compiled: vector body plus scalar tail)
saturates out-of-range inputs: any element above 32767 yields 32767, any
element below -32768 yields -32768, at every position of the buffer. -/
theorem pcm_float_to_int16_saturates (input : List ℚ) (i : Nat)
    (hi : i < input.length) :
    (32767 < input.getD i 0 →
      (pcm_float_to_int16_simd input).getD i 0 = 32767) ∧
    (input.getD i 0 < -32768 →
      (pcm_float_to_int16_simd input).getD i 0 = -32768) := by
  rw [pcm_float_to_int16_simd_getD input i hi]
  constructor
  · intro hv
    split
    · exact simd_float_to_int16_one_high _ hv
    · exact float_to_int16_one_high _ hv
  · intro hv
    split
    · exact simd_float_to_int16_one_low _ hv
    · exact float_to_int16_one_low _ hv

theorem pcm_float_to_int16_saturates_witness :
    (pcm_float_to_int16_simd [(40000 : ℚ), -40000]).getD 0 0 = 32767 ∧
    (pcm_float_to_int16_simd [(40000 : ℚ), -40000]).getD 1 0 = -32768 :=
  ⟨(pcm_float_to_int16_saturates [(40000 : ℚ), -40000] 0 (by norm_num)).1
      (by norm_num [List.getD_cons_zero]),
   (pcm_float_to_int16_saturates [(40000 : ℚ), -40000] 1 (by norm_num)).2
      (by norm_num [List.getD_cons_succ, List.getD_cons_zero])⟩

/-- Claim C3 counterexample: the vectorized `pcm_float_to_int16` is NOT
bit-for-bit identical to the scalar implementation.  On eight copies of 1.5
the SSE body (`_mm_cvtps_epi32`, round to nearest even) produces 2 while the
scalar path (C cast, truncation toward zero) produces 1. -/
theorem pcm_simd_scalar_mismatch :
    ¬ (pcm_float_to_int16_simd (List.replicate 8 (3/2 : ℚ)) =
        pcm_float_to_int16_scalar (List.replicate 8 (3/2 : ℚ))) := by
  have hclamp : clampPCM (3/2 : ℚ) = 3/2 :=
    clampPCM_of_mem _ (by norm_num) (by norm_num)
  have hrne : rne (3/2 : ℚ) = 2 := by
    unfold rne
    norm_num
  have hsone : simd_float_to_int16_one (3/2 : ℚ) = 2 := by
    unfold simd_float_to_int16_one
    rw [hclamp, hrne]
    unfold packs16
    omega
  have hone : float_to_int16_one (3/2 : ℚ) = 1 := by
    unfold float_to_int16_one
    rw [hclamp]
    unfold truncToInt
    norm_num
  unfold pcm_float_to_int16_simd pcm_float_to_int16_scalar
  simp only [List.length_replicate, List.take_replicate, List.drop_replicate,
    List.map_replicate, hsone, hone]
  norm_num

/-- Claim C3 (amended):  The vectorized int16→float conversion matches the
scalar one bit-for-bit on every input; the vectorized float→int16 conversion
matches the scalar one whenever each input's clamped value is an exact
integer (in particular on every integer-valued buffer), but in general the
vector body rounds to nearest even while the scalar path truncates toward
zero, so they may differ by one on fractional inputs. -/
theorem pcm_simd_scalar_equiv_amended :
    (∀ input : List ℤ,
      pcm_int16_to_float_simd input = pcm_int16_to_float_scalar input) ∧
    (∀ input : List ℚ,
      (∀ v ∈ input, ∃ n : ℤ, clampPCM v = (n : ℚ)) →
      pcm_float_to_int16_simd input = pcm_float_to_int16_scalar input) := by
  refine ⟨pcm_int16_to_float_simd_eq_scalar, fun input hint => ?_⟩
  have hpt : ∀ v ∈ input, simd_float_to_int16_one v = float_to_int16_one v := by
    intro v hv
    obtain ⟨n, hn⟩ := hint v hv
    have hb := clampPCM_bounds v
    rw [hn] at hb
    have hb1 : (-32768 : ℤ) ≤ n := by exact_mod_cast hb.1
    have hb2 : n ≤ 32767 := by exact_mod_cast hb.2
    unfold simd_float_to_int16_one float_to_int16_one
    rw [hn, rne_intCast, truncToInt_intCast]
    exact packs16_of_mem n hb1 hb2
  unfold pcm_float_to_int16_simd pcm_float_to_int16_scalar
  have e1 : (input.take (8 * (input.length / 8))).map simd_float_to_int16_one =
      (input.take (8 * (input.length / 8))).map float_to_int16_one :=
    List.map_congr_left fun v hv => hpt v (List.take_subset _ _ hv)
  rw [e1, ← List.map_append, List.take_append_drop]

theorem pcm_simd_scalar_equiv_amended_witness :
    pcm_float_to_int16_simd (List.replicate 9 (2 : ℚ)) =
      pcm_float_to_int16_scalar (List.replicate 9 (2 : ℚ)) :=
  pcm_simd_scalar_equiv_amended.2 _ (fun v hv => ⟨2, by
    have hv2 : v = 2 := List.eq_of_mem_replicate hv
    rw [hv2, clampPCM_of_mem _ (by norm_num) (by norm_num)]
    norm_num⟩)

/-! ## Stereo de-interleave / re-interleave (`denoiser.c` lines 191–215) -/

/-- Core of `deinterleave_stereo` (lines 191–197): split interleaved int16
samples into the left/right float buffers, casting each sample exactly. -/
def deinterleavePairs : List ℤ → List ℚ × List ℚ
  | a :: b :: rest =>
    ((a : ℚ) :: (deinterleavePairs rest).1, (b : ℚ) :: (deinterleavePairs rest).2)
  | _ => ([], [])

/-- Function `deinterleave_stereo(input, left, right, frame_size)`: the loop reads
exactly `2 * frame_size` input samples (the caller contract supplies
`channels × quantum` samples). -/
def deinterleave_stereo (input : List ℤ) (frame_size : Nat) :
    List ℚ × List ℚ :=
  deinterleavePairs (input.take (2 * frame_size))

/-- Core of `interleave_stereo` (lines 199–215): write the two float buffers
back as interleaved int16, applying the same clamp-then-cast as the scalar
converter (lines 204–213 repeat lines 102–107 verbatim). -/
def interleavePairs : List ℚ → List ℚ → List ℤ
  | l :: ls, r :: rs =>
    float_to_int16_one l :: float_to_int16_one r :: interleavePairs ls rs
  | _, _ => []

/-- Function `interleave_stereo(left, right, output, frame_size)`: the loop writes
exactly `frame_size` pairs. -/
def interleave_stereo (left right : List ℚ) (frame_size : Nat) : List ℤ :=
  interleavePairs (left.take frame_size) (right.take frame_size)

/-! ## Denoiser context (`denoiser.c` lines 217–535)

The RNNoise inference engine is external (spec §6): it is embedded as an
oracle giving, per channel index, the denoised frame and the VAD score
computed by `rnnoise_process_frame`. -/

/-- Inference-engine oracle: channel index ↦ input frame ↦ (denoised frame,
VAD score). -/
abbrev RnnOracle : Type := Nat → List ℚ → List ℚ × ℚ

/-- The fields of `struct DenoiserConfig` that `denoiser_create` reads.
`model_path = none` models a NULL path; `model_path = some ok` models a
non-NULL path where `ok` says whether `rnnoise_model_from_filename`
succeeds on it. -/
structure DenoiserConfig where
  model_preset_embedded : Bool
  model_path : Option Bool
  num_channels : Int
  vad_threshold : ℚ
  enable_vad_output : Bool
  deriving Repr, DecidableEq

/-- Struct `Denoiser`.  The three per-channel arrays are embedded as
`Option Nat`: `none` is a NULL pointer, `some n` an allocated array of `n`
entries (the claims never inspect the transient buffer contents). -/
structure Denoiser where
  num_channels : Int
  vad_threshold : ℚ
  enable_vad_output : Bool
  model_loaded : Bool
  denoisers : Option Nat
  processing_buffers : Option Nat
  workers : Option Nat
  frames_processed : Nat
  speech_frames : Nat
  total_vad_score : ℚ
  min_vad_score : ℚ
  max_vad_score : ℚ
  total_processing_time : ℚ
  last_frame_time : ℚ
  deriving Repr, DecidableEq

/-- The all-zero `struct Denoiser` left by `memset(denoiser, 0, sizeof *d)`. -/
def denoiser_zeroed : Denoiser :=
  { num_channels := 0, vad_threshold := 0, enable_vad_output := false,
    model_loaded := false, denoisers := none, processing_buffers := none,
    workers := none, frames_processed := 0, speech_frames := 0,
    total_vad_score := 0, min_vad_score := 0, max_vad_score := 0,
    total_processing_time := 0, last_frame_time := 0 }

/-- The channel-initialization loop of `denoiser_create` (lines 310–403) with
every allocation succeeding: one engine state, one processing buffer and one
worker per channel. -/
def denoiser_alloc_channels (d : Denoiser) : Denoiser :=
  { d with denoisers := some d.num_channels.toNat,
           processing_buffers := some d.num_channels.toNat,
           workers := some d.num_channels.toNat }

/-- Function `denoiser_create` (lines 268–407), modelled with allocation and engine
creation succeeding (the OutOfMemory paths are not the subject of any
claim).  Returns the C return code together with the contents the call
leaves in the caller's `struct Denoiser`. -/
def denoiser_create (config : Option DenoiserConfig) (d : Denoiser) :
    Int × Denoiser :=
  match config with
  | none => (REALTIME_DENOISER_ERROR_INVALID, d)
  | some cfg =>
    let nch : Int := if cfg.num_channels > 0 then cfg.num_channels else 1
    let d1 : Denoiser := { denoiser_zeroed with num_channels := nch }
    if nch < 1 ∨ nch > 2 then (REALTIME_DENOISER_ERROR_INVALID, d1)
    else
      let d2 : Denoiser := { d1 with
        vad_threshold :=
          if cfg.vad_threshold > 0 then cfg.vad_threshold else 1/2,
        enable_vad_output := cfg.enable_vad_output,
        min_vad_score := 1, max_vad_score := 0 }
      match cfg.model_path, cfg.model_preset_embedded with
      | none, _ =>
        (REALTIME_DENOISER_SUCCESS, denoiser_alloc_channels d2)
      | some _, true =>
        (REALTIME_DENOISER_SUCCESS, denoiser_alloc_channels d2)
      | some ok, false =>
        if ok then
          (REALTIME_DENOISER_SUCCESS,
            denoiser_alloc_channels { d2 with model_loaded := true })
        else (REALTIME_DENOISER_ERROR_MODEL, d2)

/-- Struct `DenoiserResult`. -/
structure DenoiserResult where
  vad_probability : ℚ
  is_speech : Bool
  samples_processed : Int
  deriving Repr, DecidableEq

/-- The per-frame combined VAD score of `denoiser_process`: the mono path
uses the single channel's inference score (lines 424–427), the multi-channel
path sums the per-channel scores and divides by the channel count
(lines 447–459).  The non-mono branch dispatches the two channels that a
created context can have (channel count is validated to 1 or 2 at creation;
the worker handoff joins before returning, so its visible effect is
sequential). -/
def processCombined (rnn : RnnOracle) (d : Denoiser) (inp : List ℤ) : ℚ :=
  if d.num_channels = 1 then
    (rnn 0 (pcm_int16_to_float_simd (inp.take FRAME_SIZE))).2
  else
    ((rnn 0 (deinterleave_stereo inp FRAME_SIZE).1).2 +
      (rnn 1 (deinterleave_stereo inp FRAME_SIZE).2).2) /
      (d.num_channels : ℚ)

/-- The denoised PCM frame `denoiser_process` writes to `output_pcm`:
mono converts the denoised float buffer back (line 428), stereo
re-interleaves the two denoised channels (lines 461–462). -/
def processOutput (rnn : RnnOracle) (d : Denoiser) (inp : List ℤ) : List ℤ :=
  if d.num_channels = 1 then
    pcm_float_to_int16_simd
      (rnn 0 (pcm_int16_to_float_simd (inp.take FRAME_SIZE))).1
  else
    interleave_stereo (rnn 0 (deinterleave_stereo inp FRAME_SIZE).1).1
      (rnn 1 (deinterleave_stereo inp FRAME_SIZE).2).1 FRAME_SIZE

/-- The statistics update of `denoiser_process` (lines 471–487). -/
def statsUpdate (d : Denoiser) (total_vad t : ℚ) : Denoiser :=
  { d with
    frames_processed := d.frames_processed + 1,
    total_vad_score := d.total_vad_score + total_vad,
    total_processing_time := d.total_processing_time + t,
    last_frame_time := t,
    speech_frames :=
      if total_vad ≥ d.vad_threshold then d.speech_frames + 1
      else d.speech_frames,
    min_vad_score :=
      if total_vad < d.min_vad_score then total_vad else d.min_vad_score,
    max_vad_score :=
      if total_vad > d.max_vad_score then total_vad else d.max_vad_score }

/-- The result population of `denoiser_process` (lines 489–500). -/
def resultPopulate (d : Denoiser) (total_vad : ℚ) : DenoiserResult :=
  if d.enable_vad_output then
    { vad_probability := total_vad,
      is_speech := decide (total_vad ≥ d.vad_threshold),
      samples_processed := (FRAME_SIZE : Int) }
  else
    { vad_probability := 0, is_speech := false, samples_processed := 0 }

/-- Function `denoiser_process` (lines 410–503).  `rnn` is the inference oracle,
`frame_time` the elapsed time measured for this call.  The returned output
buffer and result struct are `none` when the call did not write them (error
return, or `result == NULL`). -/
def denoiser_process (rnn : RnnOracle) (frame_time : ℚ)
    (den : Option Denoiser) (input : Option (List ℤ))
    (output_nonnull result_nonnull : Bool) :
    Int × Option Denoiser × Option (List ℤ) × Option DenoiserResult :=
  match den, input, output_nonnull with
  | some d, some inp, true =>
    (REALTIME_DENOISER_SUCCESS,
      some (statsUpdate d (processCombined rnn d inp) frame_time),
      some (processOutput rnn d inp),
      if result_nonnull then
        some (resultPopulate d (processCombined rnn d inp))
      else none)
  | _, _, _ => (REALTIME_DENOISER_ERROR_INVALID, den, none, none)

/-- Function `denoiser_destroy` (lines 506–535).  `none` models a crash: the two loops
dereference `workers[i]`, `denoisers[i]` and `processing_buffers[i]` for
every `i < num_channels`, so a null or too-short array is dereferenced out
of bounds.  A NULL `denoiser` returns immediately, and with no channels to
visit, `free` / `rnnoise_model_free` of the remaining pointers is safe even
when they are NULL. -/
def denoiser_destroy (den : Option Denoiser) : Option Unit :=
  match den with
  | none => some ()
  | some d =>
    if d.num_channels ≤ 0 then some ()
    else
      match d.workers, d.denoisers, d.processing_buffers with
      | some nw, some nd, some nb =>
        if d.num_channels ≤ (nw : Int) ∧ d.num_channels ≤ (nd : Int) ∧
            d.num_channels ≤ (nb : Int) then some ()
        else none
      | _, _, _ => none

/-! ## Claims about `denoiser_create` (C4, C5) -/

/-- A configuration selecting the embedded model with the given channel
count (the threshold field plays no role in C4). -/
def cfgChannels (n : Int) : DenoiserConfig :=
  { model_preset_embedded := true, model_path := none, num_channels := n,
    vad_threshold := 0, enable_vad_output := false }

/-- Behavior of `denoiser_create` on a channel count above 2: the validation fires
after `num_channels` has already been stored into the zeroed struct. -/
theorem denoiser_create_big_channels (cfg : DenoiserConfig) (d : Denoiser)
    (h : 2 < cfg.num_channels) :
    denoiser_create (some cfg) d =
      (REALTIME_DENOISER_ERROR_INVALID,
        { denoiser_zeroed with num_channels := cfg.num_channels }) := by
  have h0 : cfg.num_channels > 0 := by omega
  simp only [denoiser_create, h0, if_true, ite_true]
  rw [if_pos (Or.inr h)]

/-- Claim C4 counterexample: `denoiser_create` with channel count 0 does NOT
return InvalidArgument — the code coerces 0 to the default 1
(`config->num_channels > 0 ? config->num_channels : 1`) and the call
succeeds; and after the InvalidArgument return for channel count 3 the
context keeps `num_channels = 3` over NULL per-channel arrays, so
`denoiser_destroy` on it dereferences NULL instead of returning safely. -/
theorem denoiser_create_invalid_channels_cex :
    (denoiser_create (some (cfgChannels 0)) denoiser_zeroed).1 =
      REALTIME_DENOISER_SUCCESS ∧
    denoiser_destroy
        (some (denoiser_create (some (cfgChannels 3)) denoiser_zeroed).2) =
      none := by
  refine ⟨rfl, ?_⟩
  rw [denoiser_create_big_channels _ _ (by norm_num [cfgChannels])]
  rfl

/-- Claim C4 (amended):  `denoiser_create` returns InvalidArgument for every
channel count above 2 (such as 3) and at that point has allocated nothing:
the engine-state, processing-buffer and worker arrays and the model are all
still NULL.  A channel count of 0 (or any non-positive count) is replaced by
the default 1 and creation proceeds, so 0 yields success, not
InvalidArgument.  Because `num_channels` keeps the invalid count on the
error return, `denoiser_destroy` on that context walks `num_channels`
entries of the NULL worker array and crashes rather than returning safely. -/
theorem denoiser_create_invalid_channels_amended (cfg : DenoiserConfig)
    (d : Denoiser) (h : 2 < cfg.num_channels) :
    (denoiser_create (some cfg) d).1 = REALTIME_DENOISER_ERROR_INVALID ∧
    (denoiser_create (some cfg) d).2.denoisers = none ∧
    (denoiser_create (some cfg) d).2.processing_buffers = none ∧
    (denoiser_create (some cfg) d).2.workers = none ∧
    (denoiser_create (some cfg) d).2.model_loaded = false ∧
    (∀ cfg0 : DenoiserConfig, cfg0.num_channels ≤ 0 →
      (cfg0.model_path = none ∨ cfg0.model_preset_embedded = true) →
      (denoiser_create (some cfg0) d).1 = REALTIME_DENOISER_SUCCESS) ∧
    denoiser_destroy (some (denoiser_create (some cfg) d).2) = none := by
  rw [denoiser_create_big_channels cfg d h]
  refine ⟨rfl, rfl, rfl, rfl, rfl, ?_, ?_⟩
  · intro cfg0 h0 hm
    have hn : ¬ cfg0.num_channels > 0 := by omega
    simp only [denoiser_create, hn, if_false, ite_false]
    norm_num
    rcases hm with hm | hm
    · rw [hm]
    · rcases hp : cfg0.model_path with _ | ok
      · rfl
      · rw [hm]
  · have hpos : ¬ ({ denoiser_zeroed with
        num_channels := cfg.num_channels } : Denoiser).num_channels ≤ 0 := by
      simp only [denoiser_zeroed]
      omega
    simp [denoiser_destroy, hpos, denoiser_zeroed]

theorem denoiser_create_invalid_channels_amended_witness :
    ((denoiser_create (some (cfgChannels 3)) denoiser_zeroed).1 =
      REALTIME_DENOISER_ERROR_INVALID) ∧
    denoiser_destroy
        (some (denoiser_create (some (cfgChannels 3)) denoiser_zeroed).2) =
      none :=
  ⟨(denoiser_create_invalid_channels_amended (cfgChannels 3) denoiser_zeroed
      (by norm_num [cfgChannels])).1,
   (denoiser_create_invalid_channels_amended (cfgChannels 3) denoiser_zeroed
      (by norm_num [cfgChannels])).2.2.2.2.2.2⟩

/-- A configuration selecting the embedded model, one channel and the given
VAD threshold. -/
def cfgThreshold (q : ℚ) : DenoiserConfig :=
  { model_preset_embedded := true, model_path := none, num_channels := 1,
    vad_threshold := q, enable_vad_output := false }

/-- Claim C5 counterexample: a configured VAD threshold of 2.0 lies outside
[0, 1] but is kept as-is (the code only tests `vad_threshold > 0.0f`), while
a configured threshold of 0.0 lies inside [0, 1] but is replaced by the
default 0.5. -/
theorem denoiser_create_vad_threshold_cex :
    (denoiser_create (some (cfgThreshold 2))
        denoiser_zeroed).2.vad_threshold = 2 ∧
    (denoiser_create (some (cfgThreshold 0))
        denoiser_zeroed).2.vad_threshold = 1/2 := by
  constructor
  · show (if (2:ℚ) > 0 then (2:ℚ) else 1/2) = 2
    norm_num
  · show (if (0:ℚ) > 0 then (0:ℚ) else 1/2) = 1/2
    norm_num

/-- Claim C5 (amended):  For every configuration with a valid channel count,
`denoiser_create` keeps any configured VAD threshold strictly greater than 0
— including values above 1 — and replaces any threshold less than or equal
to 0 — including 0 itself, which lies inside [0, 1] — by the default 0.5. -/
theorem denoiser_create_vad_threshold_amended (cfg : DenoiserConfig)
    (d : Denoiser) (h1 : 1 ≤ cfg.num_channels) (h2 : cfg.num_channels ≤ 2) :
    (0 < cfg.vad_threshold →
      (denoiser_create (some cfg) d).2.vad_threshold = cfg.vad_threshold) ∧
    (cfg.vad_threshold ≤ 0 →
      (denoiser_create (some cfg) d).2.vad_threshold = 1/2) := by
  have h0 : cfg.num_channels > 0 := by omega
  have hno : ¬ (cfg.num_channels < 1 ∨ cfg.num_channels > 2) := by omega
  simp only [denoiser_create, h0, if_true, ite_true, hno, if_false, ite_false]
  rcases hm : cfg.model_path with _ | ok
  · constructor <;> intro hv <;>
      simp [denoiser_alloc_channels, hv, not_lt.mpr, le_of_lt]
  · cases hpre : cfg.model_preset_embedded
    · cases ok
      · constructor <;> intro hv <;>
          simp [denoiser_alloc_channels, hv]
      · constructor <;> intro hv <;>
          simp [denoiser_alloc_channels, hv]
    · constructor <;> intro hv <;>
        simp [denoiser_alloc_channels, hv]

theorem denoiser_create_vad_threshold_amended_witness :
    ((0:ℚ) < 2 ∧
      (denoiser_create (some (cfgThreshold 2))
        denoiser_zeroed).2.vad_threshold = 2) ∧
    ((0:ℚ) ≤ 0 ∧
      (denoiser_create (some (cfgThreshold 0))
        denoiser_zeroed).2.vad_threshold = 1/2) :=
  ⟨⟨by norm_num,
    (denoiser_create_vad_threshold_amended (cfgThreshold 2) denoiser_zeroed
      (by norm_num [cfgThreshold]) (by norm_num [cfgThreshold])).1
      (by norm_num [cfgThreshold])⟩,
   ⟨le_refl 0,
    (denoiser_create_vad_threshold_amended (cfgThreshold 0) denoiser_zeroed
      (by norm_num [cfgThreshold]) (by norm_num [cfgThreshold])).2
      (by norm_num [cfgThreshold])⟩⟩

/-! ## Claims about `denoiser_process` (C6, C7) -/

/-- Indexing the interleaved stereo output: even positions come from the
left buffer, odd positions from the right buffer, each clamped and cast. -/
theorem interleavePairs_getD (ls rs : List ℚ) (i : Nat)
    (hi : i < ls.length) (hlen : ls.length = rs.length) :
    (interleavePairs ls rs).getD (2*i) 0 =
      float_to_int16_one (ls.getD i 0) ∧
    (interleavePairs ls rs).getD (2*i+1) 0 =
      float_to_int16_one (rs.getD i 0) := by
  induction ls generalizing rs i with
  | nil => simp at hi
  | cons l ls ih =>
    cases rs with
    | nil => simp at hlen
    | cons r rs =>
      cases i with
      | zero => simp [interleavePairs]
      | succ j =>
        have e2 : 2 * (j+1) + 1 = 2*j + 1 + 1 + 1 := by ring
        have e1 : 2 * (j+1) = 2*j + 1 + 1 := by ring
        rw [e2, e1]
        simp only [interleavePairs, List.getD_cons_succ]
        exact ih rs j (by simp at hi; omega) (by simp at hlen; omega)

/-- Claim C6: For a two-channel frame, the combined VAD score computed by
`denoiser_process` is the arithmetic mean (s0 + s1) / 2 of the two
per-channel inference scores; the combined score and the output buffer are
unchanged under an oracle that swaps the two channels' scores (the mean is
commutative); and each channel's denoised samples land at their own
interleaved index — output[2i] from channel 0, output[2i+1] from channel 1. -/
theorem denoiser_process_stereo_mean (rnn rnnSwap : RnnOracle) (t : ℚ)
    (d : Denoiser) (inp : List ℤ)
    (hch : d.num_channels = 2)
    (len0 : (rnn 0 (deinterleave_stereo inp FRAME_SIZE).1).1.length =
      FRAME_SIZE)
    (len1 : (rnn 1 (deinterleave_stereo inp FRAME_SIZE).2).1.length =
      FRAME_SIZE)
    (hsw0 : rnnSwap 0 (deinterleave_stereo inp FRAME_SIZE).1 =
      ((rnn 0 (deinterleave_stereo inp FRAME_SIZE).1).1,
       (rnn 1 (deinterleave_stereo inp FRAME_SIZE).2).2))
    (hsw1 : rnnSwap 1 (deinterleave_stereo inp FRAME_SIZE).2 =
      ((rnn 1 (deinterleave_stereo inp FRAME_SIZE).2).1,
       (rnn 0 (deinterleave_stereo inp FRAME_SIZE).1).2)) :
    processCombined rnn d inp =
      ((rnn 0 (deinterleave_stereo inp FRAME_SIZE).1).2 +
       (rnn 1 (deinterleave_stereo inp FRAME_SIZE).2).2) / 2 ∧
    processCombined rnnSwap d inp = processCombined rnn d inp ∧
    processOutput rnnSwap d inp = processOutput rnn d inp ∧
    denoiser_process rnn t (some d) (some inp) true true =
      (REALTIME_DENOISER_SUCCESS,
        some (statsUpdate d (processCombined rnn d inp) t),
        some (processOutput rnn d inp),
        some (resultPopulate d (processCombined rnn d inp))) ∧
    (∀ i, i < FRAME_SIZE →
      (processOutput rnn d inp).getD (2*i) 0 =
        float_to_int16_one
          ((rnn 0 (deinterleave_stereo inp FRAME_SIZE).1).1.getD i 0) ∧
      (processOutput rnn d inp).getD (2*i+1) 0 =
        float_to_int16_one
          ((rnn 1 (deinterleave_stereo inp FRAME_SIZE).2).1.getD i 0)) := by
  have hne : d.num_channels ≠ 1 := by omega
  refine ⟨?_, ?_, ?_, rfl, ?_⟩
  · unfold processCombined
    rw [if_neg hne, hch]
    norm_num
  · unfold processCombined
    rw [if_neg hne, if_neg hne, hsw0, hsw1]
    dsimp only
    ring
  · unfold processOutput
    rw [if_neg hne, if_neg hne, hsw0, hsw1]
  · intro i hi
    unfold processOutput interleave_stereo
    rw [if_neg hne, List.take_of_length_le (le_of_eq len0),
      List.take_of_length_le (le_of_eq len1)]
    exact interleavePairs_getD _ _ i (by rw [len0]; exact hi)
      (by rw [len0, len1])

/-- A two-channel context used to witness C6. -/
def dStereoW : Denoiser :=
  { num_channels := 2, vad_threshold := 0, enable_vad_output := true,
    model_loaded := false, denoisers := some 2, processing_buffers := some 2,
    workers := some 2, frames_processed := 0, speech_frames := 0,
    total_vad_score := 0, min_vad_score := 1, max_vad_score := 0,
    total_processing_time := 0, last_frame_time := 0 }

theorem denoiser_process_stereo_mean_witness :
    processCombined (fun ch _ => (List.replicate 480 (0:ℚ),
        if ch = 0 then (1:ℚ) else 0)) dStereoW [] =
      (((fun (ch : Nat) (_ : List ℚ) => (List.replicate 480 (0:ℚ),
          if ch = 0 then (1:ℚ) else 0)) 0
          (deinterleave_stereo [] FRAME_SIZE).1).2 +
       ((fun (ch : Nat) (_ : List ℚ) => (List.replicate 480 (0:ℚ),
          if ch = 0 then (1:ℚ) else 0)) 1
          (deinterleave_stereo [] FRAME_SIZE).2).2) / 2 ∧
    processCombined (fun ch _ => (List.replicate 480 (0:ℚ),
        if ch = 0 then (0:ℚ) else 1)) dStereoW [] =
      processCombined (fun ch _ => (List.replicate 480 (0:ℚ),
        if ch = 0 then (1:ℚ) else 0)) dStereoW [] :=
  ⟨(denoiser_process_stereo_mean
      (fun ch _ => (List.replicate 480 (0:ℚ), if ch = 0 then (1:ℚ) else 0))
      (fun ch _ => (List.replicate 480 (0:ℚ), if ch = 0 then (0:ℚ) else 1))
      0 dStereoW [] rfl (by norm_num [List.length_replicate, FRAME_SIZE])
      (by norm_num [List.length_replicate, FRAME_SIZE]) rfl rfl).1,
   (denoiser_process_stereo_mean
      (fun ch _ => (List.replicate 480 (0:ℚ), if ch = 0 then (1:ℚ) else 0))
      (fun ch _ => (List.replicate 480 (0:ℚ), if ch = 0 then (0:ℚ) else 1))
      0 dStereoW [] rfl (by norm_num [List.length_replicate, FRAME_SIZE])
      (by norm_num [List.length_replicate, FRAME_SIZE]) rfl rfl).2.1⟩

/-- Claim C7: `denoiser_process` returns InvalidArgument whenever the context,
the input buffer or the output buffer is NULL, and on every such error
return the contex­t — in particular all statistics fields
(frames_processed, speech_frames, total/min/max VAD score, timing) — is
exactly as before and neither output nor result is written; statistics are
updated exactly once per successfully completed call (frames_processed
grows by exactly 1) and never on an error path.  (A mismatched buffer
length is not detectable through the C interface: the function receives
bare pointers, so only nullness is checked.) -/
theorem denoiser_process_error_preserves_stats (rnn : RnnOracle) (t : ℚ)
    (den : Option Denoiser) (inp : Option (List ℤ)) (out_nn res_nn : Bool)
    (herr : den = none ∨ inp = none ∨ out_nn = false) :
    denoiser_process rnn t den inp out_nn res_nn =
      (REALTIME_DENOISER_ERROR_INVALID, den, none, none) ∧
    (∀ (d : Denoiser) (inp2 : List ℤ),
      denoiser_process rnn t (some d) (some inp2) true res_nn =
        (REALTIME_DENOISER_SUCCESS,
          some (statsUpdate d (processCombined rnn d inp2) t),
          some (processOutput rnn d inp2),
          if res_nn then
            some (resultPopulate d (processCombined rnn d inp2))
          else none) ∧
      (statsUpdate d (processCombined rnn d inp2) t).frames_processed =
        d.frames_processed + 1) := by
  constructor
  · rcases herr with h | h | h
    · subst h; rfl
    · subst h; cases den <;> rfl
    · subst h; cases den <;> cases inp <;> rfl
  · intro d inp2
    exact ⟨rfl, rfl⟩

theorem denoiser_process_error_preserves_stats_witness :
    denoiser_process (fun _ _ => ([], 0)) 0 none (some []) true true =
      (REALTIME_DENOISER_ERROR_INVALID, none, none, none) ∧
    Denoiser.frames_processed (statsUpdate denoiser_zeroed
        (processCombined (fun _ _ => ([], 0)) denoiser_zeroed []) 0) =
      denoiser_zeroed.frames_processed + 1 :=
  ⟨(denoiser_process_error_preserves_stats (fun _ _ => ([], 0)) 0 none
      (some []) true true (Or.inl rfl)).1,
   ((denoiser_process_error_preserves_stats (fun _ _ => ([], 0)) 0 none
      (some []) true true (Or.inl rfl)).2 denoiser_zeroed []).2⟩

/-! ## Statistics over N processed frames (C8) -/

/-- Field values `denoiser_create` stores for every valid channel count
(on the success paths and on the ModelError path alike, since the model is
loaded after these assignments). -/
theorem denoiser_create_fields (cfg : DenoiserConfig) (d : Denoiser)
    (h1 : 1 ≤ cfg.num_channels) (h2 : cfg.num_channels ≤ 2) :
    (denoiser_create (some cfg) d).2.num_channels = cfg.num_channels ∧
    (denoiser_create (some cfg) d).2.min_vad_score = 1 ∧
    (denoiser_create (some cfg) d).2.max_vad_score = 0 ∧
    (denoiser_create (some cfg) d).2.frames_processed = 0 ∧
    (denoiser_create (some cfg) d).2.speech_frames = 0 ∧
    (denoiser_create (some cfg) d).2.enable_vad_output =
      cfg.enable_vad_output := by
  have h0 : cfg.num_channels > 0 := by omega
  have hno : ¬ (cfg.num_channels < 1 ∨ cfg.num_channels > 2) := by omega
  simp only [denoiser_create, h0, if_true, ite_true, hno, if_false,
    ite_false]
  rcases hm : cfg.model_path with _ | ok
  · simp [denoiser_alloc_channels, denoiser_zeroed]
  · cases cfg.model_preset_embedded
    · cases ok <;> simp [denoiser_alloc_channels, denoiser_zeroed]
    · simp [denoiser_alloc_channels, denoiser_zeroed]

/-- Bounds maintained by the min/max VAD statistics once at least one frame
has been processed. -/
def StatsInv (d : Denoiser) : Prop :=
  0 ≤ d.min_vad_score ∧ d.min_vad_score ≤ 1 ∧
  0 ≤ d.max_vad_score ∧ d.max_vad_score ≤ 1 ∧
  d.min_vad_score ≤ d.max_vad_score

theorem statsUpdate_frames (d : Denoiser) (v t : ℚ) :
    (statsUpdate d v t).frames_processed = d.frames_processed + 1 := rfl

theorem statsUpdate_num_channels (d : Denoiser) (v t : ℚ) :
    (statsUpdate d v t).num_channels = d.num_channels := rfl

/-- One statistics update with an in-range combined score establishes the
min/max bounds, both from an already-valid state and from the freshly
created state (min = 1, max = 0). -/
theorem statsUpdate_stats_inv (d : Denoiser) (v t : ℚ)
    (hv0 : 0 ≤ v) (hv1 : v ≤ 1)
    (h : StatsInv d ∨ (d.min_vad_score = 1 ∧ d.max_vad_score = 0)) :
    StatsInv (statsUpdate d v t) := by
  unfold StatsInv statsUpdate at *
  dsimp only
  rcases h with ⟨a, b, c, e, f⟩ | ⟨hmin, hmax⟩
  · split_ifs <;> refine ⟨?_, ?_, ?_, ?_, ?_⟩ <;> linarith
  · rw [hmin, hmax]
    split_ifs <;> refine ⟨?_, ?_, ?_, ?_, ?_⟩ <;> linarith

/-- The combined score of one frame lies in [0, 1] whenever every
inference-engine score does (mono passes one score through, stereo averages
two). -/
theorem processCombined_bounds (rnn : RnnOracle) (d : Denoiser)
    (inp : List ℤ) (hch1 : 1 ≤ d.num_channels) (hch2 : d.num_channels ≤ 2)
    (hs : ∀ ch buf, 0 ≤ (rnn ch buf).2 ∧ (rnn ch buf).2 ≤ 1) :
    0 ≤ processCombined rnn d inp ∧ processCombined rnn d inp ≤ 1 := by
  unfold processCombined
  split
  · exact hs 0 _
  · rename_i hne
    have h2 : d.num_channels = 2 := by omega
    rw [h2]
    obtain ⟨a0, b0⟩ := hs 0 (deinterleave_stereo inp FRAME_SIZE).1
    obtain ⟨a1, b1⟩ := hs 1 (deinterleave_stereo inp FRAME_SIZE).2
    push_cast
    constructor <;> linarith

/-- N successive successful `denoiser_process` calls: each list entry is the
inference oracle, the measured frame time and the input frame of one call
(output buffer non-NULL, result pointer NULL). -/
def runFrames (d : Denoiser) : List (RnnOracle × ℚ × List ℤ) → Denoiser
  | [] => d
  | f :: rest =>
    runFrames ((denoiser_process f.1 f.2.1 (some d) (some f.2.2)
      true false).2.1.getD d) rest

theorem runFrames_cons (d : Denoiser) (f : RnnOracle × ℚ × List ℤ)
    (rest : List (RnnOracle × ℚ × List ℤ)) :
    runFrames d (f :: rest) =
      runFrames (statsUpdate d (processCombined f.1 d f.2.2) f.2.1) rest :=
  rfl

theorem runFrames_inv (frames : List (RnnOracle × ℚ × List ℤ))
    (d : Denoiser)
    (hch1 : 1 ≤ d.num_channels) (hch2 : d.num_channels ≤ 2)
    (hsc : ∀ f ∈ frames, ∀ ch buf,
      0 ≤ (f.1 ch buf).2 ∧ (f.1 ch buf).2 ≤ 1)
    (hst : StatsInv d ∨ (d.min_vad_score = 1 ∧ d.max_vad_score = 0)) :
    (runFrames d frames).frames_processed =
      d.frames_processed + frames.length ∧
    (1 ≤ frames.length → StatsInv (runFrames d frames)) ∧
    (StatsInv d → StatsInv (runFrames d frames)) := by
  induction frames generalizing d with
  | nil =>
    refine ⟨by simp [runFrames], by intro h; simp at h, ?_⟩
    intro h
    simpa [runFrames] using h
  | cons f rest ih =>
    rw [runFrames_cons]
    have hbounds := processCombined_bounds f.1 d f.2.2 hch1 hch2
      (hsc f (List.mem_cons_self f rest))
    have hinv1 : StatsInv (statsUpdate d (processCombined f.1 d f.2.2) f.2.1) :=
      statsUpdate_stats_inv d _ _ hbounds.1 hbounds.2 hst
    have hrec := ih (statsUpdate d (processCombined f.1 d f.2.2) f.2.1)
      (by rw [statsUpdate_num_channels]; exact hch1)
      (by rw [statsUpdate_num_channels]; exact hch2)
      (fun g hg => hsc g (List.mem_cons_of_mem _ hg)) (Or.inl hinv1)
    refine ⟨?_, fun _ => hrec.2.2 hinv1, fun _ => hrec.2.2 hinv1⟩
    rw [hrec.1, statsUpdate_frames]
    simp only [List.length_cons]
    omega

/-- Claim C8:  Starting from a created context (min/max VAD scores
initialized to 1.0/0.0), after any positive number N of successful
`denoiser_process` calls whose inference scores all lie in [0, 1], the
statistics satisfy min_vad_score ≤ max_vad_score with both in [0, 1], and
frames_processed equals N, the exact number of completed calls. -/
theorem denoiser_stats_after_N (cfg : DenoiserConfig)
    (frames : List (RnnOracle × ℚ × List ℤ))
    (hch1 : 1 ≤ cfg.num_channels) (hch2 : cfg.num_channels ≤ 2)
    (hN : 1 ≤ frames.length)
    (hsc : ∀ f ∈ frames, ∀ ch buf,
      0 ≤ (f.1 ch buf).2 ∧ (f.1 ch buf).2 ≤ 1) :
    (denoiser_create (some cfg) denoiser_zeroed).2.min_vad_score = 1 ∧
    (denoiser_create (some cfg) denoiser_zeroed).2.max_vad_score = 0 ∧
    Denoiser.frames_processed
      (runFrames (denoiser_create (some cfg) denoiser_zeroed).2 frames) =
      frames.length ∧
    0 ≤ Denoiser.min_vad_score
      (runFrames (denoiser_create (some cfg) denoiser_zeroed).2 frames) ∧
    Denoiser.min_vad_score
        (runFrames (denoiser_create (some cfg) denoiser_zeroed).2 frames) ≤
      Denoiser.max_vad_score
        (runFrames (denoiser_create (some cfg) denoiser_zeroed).2 frames) ∧
    Denoiser.max_vad_score
        (runFrames (denoiser_create (some cfg) denoiser_zeroed).2 frames) ≤
      1 := by
  obtain ⟨hchn, hmin, hmax, hfr, hsp, hen⟩ :=
    denoiser_create_fields cfg denoiser_zeroed hch1 hch2
  have hrun := runFrames_inv frames
    (denoiser_create (some cfg) denoiser_zeroed).2
    (by rw [hchn]; exact hch1) (by rw [hchn]; exact hch2) hsc
    (Or.inr ⟨hmin, hmax⟩)
  have hinvN := hrun.2.1 hN
  unfold StatsInv at hinvN
  refine ⟨hmin, hmax, ?_, hinvN.1, hinvN.2.2.2.2, hinvN.2.2.2.1⟩
  rw [hrun.1, hfr]
  omega

theorem denoiser_stats_after_N_witness :
    (denoiser_create (some (cfgThreshold 0)) denoiser_zeroed).2.min_vad_score
      = 1 ∧
    Denoiser.frames_processed
      (runFrames (denoiser_create (some (cfgThreshold 0)) denoiser_zeroed).2
        [(fun _ _ => ([], 1), 0, ([] : List ℤ))]) =
      ([(fun _ _ => (([] : List ℚ), (1:ℚ)), (0:ℚ), ([] : List ℤ))] :
        List (RnnOracle × ℚ × List ℤ)).length :=
  ⟨(denoiser_stats_after_N (cfgThreshold 0)
      [(fun _ _ => ([], 1), 0, ([] : List ℤ))]
      (by norm_num [cfgThreshold]) (by norm_num [cfgThreshold])
      (by norm_num)
      (by
        intro f hf ch buf
        rw [List.mem_singleton] at hf
        subst hf
        exact ⟨by norm_num, by norm_num⟩)).1,
   (denoiser_stats_after_N (cfgThreshold 0)
      [(fun _ _ => ([], 1), 0, ([] : List ℤ))]
      (by norm_num [cfgThreshold]) (by norm_num [cfgThreshold])
      (by norm_num)
      (by
        intro f hf ch buf
        rw [List.mem_singleton] at hf
        subst hf
        exact ⟨by norm_num, by norm_num⟩)).2.2.1⟩

/-! ## VAD-output gating and the speech counter (C9, C10) -/

theorem pcm_float_to_int16_simd_length (l : List ℚ) :
    (pcm_float_to_int16_simd l).length = l.length := by
  unfold pcm_float_to_int16_simd
  simp only [List.length_append, List.length_map, List.length_take,
    List.length_drop]
  omega

theorem interleavePairs_length (ls rs : List ℚ) :
    (interleavePairs ls rs).length = 2 * min ls.length rs.length := by
  induction ls generalizing rs with
  | nil => cases rs <;> simp [interleavePairs]
  | cons l ls ih =>
    cases rs with
    | nil => simp [interleavePairs]
    | cons r rs =>
      simp only [interleavePairs, List.length_cons, ih]
      omega

/-- Claim C9:  On a successful call, a context created with VAD output
disabled reports samples_processed = 0 with the VAD fields unpopulated
(zero probability, no speech flag) while the call still writes the full
denoised frame — frame size (480) samples per channel — into the output
buffer; with VAD output enabled the result carries the combined VAD
probability and samples_processed = 480. -/
theorem denoiser_process_vad_flag_output (rnn : RnnOracle) (t : ℚ)
    (d : Denoiser) (inp : List ℤ)
    (hch : d.num_channels = 1 ∨ d.num_channels = 2)
    (hlen : ∀ ch buf, (rnn ch buf).1.length = FRAME_SIZE) :
    (d.enable_vad_output = false →
      (denoiser_process rnn t (some d) (some inp) true true).2.2.2 =
        some { vad_probability := 0, is_speech := false,
               samples_processed := 0 }) ∧
    (d.enable_vad_output = true →
      (denoiser_process rnn t (some d) (some inp) true true).2.2.2 =
        some { vad_probability := processCombined rnn d inp,
               is_speech :=
                 decide (processCombined rnn d inp ≥ d.vad_threshold),
               samples_processed := (480 : Int) }) ∧
    (denoiser_process rnn t (some d) (some inp) true true).2.2.1 =
      some (processOutput rnn d inp) ∧
    (processOutput rnn d inp).length =
      FRAME_SIZE * d.num_channels.toNat := by
  refine ⟨?_, ?_, rfl, ?_⟩
  · intro hen
    simp [denoiser_process, resultPopulate, hen]
  · intro hen
    simp [denoiser_process, resultPopulate, hen, FRAME_SIZE]
  · rcases hch with h1 | h2
    · unfold processOutput
      rw [if_pos h1, pcm_float_to_int16_simd_length, hlen, h1]
      rfl
    · have hne : d.num_channels ≠ 1 := by omega
      unfold processOutput interleave_stereo
      rw [if_neg hne,
        List.take_of_length_le (le_of_eq (hlen 0 _)),
        List.take_of_length_le (le_of_eq (hlen 1 _)),
        interleavePairs_length, hlen, hlen, h2]
      rfl

/-- A mono context with VAD output disabled and threshold 0; used to
witness C9 and to exhibit the C10 counterexample. -/
def dMonoOff : Denoiser :=
  { num_channels := 1, vad_threshold := 0, enable_vad_output := false,
    model_loaded := false, denoisers := some 1, processing_buffers := some 1,
    workers := some 1, frames_processed := 0, speech_frames := 0,
    total_vad_score := 0, min_vad_score := 1, max_vad_score := 0,
    total_processing_time := 0, last_frame_time := 0 }

theorem denoiser_process_vad_flag_output_witness :
    (denoiser_process (fun _ _ => (List.replicate 480 (0:ℚ), 1)) 0
        (some dMonoOff) (some []) true true).2.2.2 =
      some { vad_probability := 0, is_speech := false,
             samples_processed := 0 } ∧
    (processOutput (fun _ _ => (List.replicate 480 (0:ℚ), 1))
        dMonoOff []).length =
      FRAME_SIZE * dMonoOff.num_channels.toNat :=
  ⟨(denoiser_process_vad_flag_output
      (fun _ _ => (List.replicate 480 (0:ℚ), 1)) 0 dMonoOff []
      (Or.inl rfl)
      (fun _ _ => by norm_num [List.length_replicate, FRAME_SIZE])).1 rfl,
   (denoiser_process_vad_flag_output
      (fun _ _ => (List.replicate 480 (0:ℚ), 1)) 0 dMonoOff []
      (Or.inl rfl)
      (fun _ _ => by norm_num [List.length_replicate, FRAME_SIZE])).2.2.2⟩

/-- Claim C10 counterexample: with VAD output disabled, a frame whose combined
score (1) reaches the context's threshold (0) increments speech_frames from
0 to 1, yet the written result reports is_speech = false — the flag is NOT
true exactly when the counter was incremented. -/
theorem speech_flag_without_vad_output_cex :
    ((denoiser_process (fun _ _ => ([], 1)) 0 (some dMonoOff) (some [])
        true true).2.1.map Denoiser.speech_frames) = some 1 ∧
    (denoiser_process (fun _ _ => ([], 1)) 0 (some dMonoOff) (some [])
        true true).2.2.2 =
      some { vad_probability := 0, is_speech := false,
             samples_processed := 0 } :=
  ⟨rfl, rfl⟩

/-- Claim C10 (amended):  Each successful `denoiser_process` call increments
frames_processed by exactly 1 and increments speech_frames by 1 exactly
when the frame's combined VAD score reaches the context's threshold, and
every operation preserves speech_frames ≤ frames_processed: creation
establishes it with both counters 0, error returns leave the context
untouched, and a successful call preserves it.  The result's is_speech flag
is true exactly when speech_frames was incremented PROVIDED VAD output is
enabled; with VAD output disabled the flag is always reported false, even
for frames that incremented the counter. -/
theorem speech_frames_invariant (rnn : RnnOracle) (t : ℚ) (d : Denoiser)
    (inp : List ℤ) (cfg : DenoiserConfig) (dpre : Denoiser)
    (hch1 : 1 ≤ cfg.num_channels) (hch2 : cfg.num_channels ≤ 2)
    (hinv : d.speech_frames ≤ d.frames_processed) :
    (denoiser_create (some cfg) dpre).2.speech_frames ≤
      (denoiser_create (some cfg) dpre).2.frames_processed ∧
    denoiser_process rnn t (some d) none true true =
      (REALTIME_DENOISER_ERROR_INVALID, some d, none, none) ∧
    (statsUpdate d (processCombined rnn d inp) t).frames_processed =
      d.frames_processed + 1 ∧
    (statsUpdate d (processCombined rnn d inp) t).speech_frames =
      (if processCombined rnn d inp ≥ d.vad_threshold then
        d.speech_frames + 1 else d.speech_frames) ∧
    (statsUpdate d (processCombined rnn d inp) t).speech_frames ≤
      (statsUpdate d (processCombined rnn d inp) t).frames_processed ∧
    (denoiser_process rnn t (some d) (some inp) true true).2.2.2 =
      some (resultPopulate d (processCombined rnn d inp)) ∧
    (d.enable_vad_output = true →
      ((resultPopulate d (processCombined rnn d inp)).is_speech = true ↔
        (statsUpdate d (processCombined rnn d inp) t).speech_frames =
          d.speech_frames + 1)) ∧
    (d.enable_vad_output = false →
      (resultPopulate d (processCombined rnn d inp)).is_speech = false) := by
  obtain ⟨_, _, _, hfr, hsp, _⟩ := denoiser_create_fields cfg dpre hch1 hch2
  refine ⟨by rw [hfr, hsp], rfl, rfl, rfl, ?_, rfl, ?_, ?_⟩
  · show (if processCombined rnn d inp ≥ d.vad_threshold then
        d.speech_frames + 1 else d.speech_frames) ≤ d.frames_processed + 1
    split_ifs <;> omega
  · intro hen
    unfold resultPopulate statsUpdate
    rw [hen]
    dsimp only
    by_cases hge : processCombined rnn d inp ≥ d.vad_threshold
    · simp [hge]
    · simp [hge]
  · intro hen
    unfold resultPopulate
    rw [hen]
    rfl

theorem speech_frames_invariant_witness :
    Denoiser.frames_processed (statsUpdate dMonoOff
        (processCombined (fun _ _ => ([], 1)) dMonoOff []) 0) =
      dMonoOff.frames_processed + 1 ∧
    DenoiserResult.is_speech (resultPopulate dMonoOff
        (processCombined (fun _ _ => ([], 1)) dMonoOff [])) = false :=
  ⟨(speech_frames_invariant (fun _ _ => ([], 1)) 0 dMonoOff []
      (cfgThreshold 0) denoiser_zeroed
      (by norm_num [cfgThreshold]) (by norm_num [cfgThreshold])
      (by decide)).2.2.1,
   (speech_frames_invariant (fun _ _ => ([], 1)) 0 dMonoOff []
      (cfgThreshold 0) denoiser_zeroed
      (by norm_num [cfgThreshold]) (by norm_num [cfgThreshold])
      (by decide)).2.2.2.2.2.2.2 rfl⟩

end Audx
